import Mathlib

/-!
Verification development for the Nova Sonic streaming session engine
(`nova_sonic_class_streaming.py`).  The Python class
`SimpleNovaSonicStreaming` is shallowly embedded: JSON wire events become a
`Json` tree, the mutable session object becomes an explicit `SessionState`
record, the three background loops (`_process_audio_input`,
`_process_responses`, `play_output_audio`) become small-step state machines,
and the base64 codec used for audio payloads is modelled byte-for-byte.
-/

/-- JSON-compatible wire documents, as built by `json.dumps` in the source.
Numeric literals are kept as a mantissa together with a decimal scale, so the
float `0.95` is `num 95 2`; no claim inspects numeric payloads. -/
inductive Json where
  | str : String → Json
  | num : Int → Nat → Json
  | bool : Bool → Json
  | obj : List (String × Json) → Json
  | arr : List Json → Json

/-- Association lookup in a JSON object's field list, first match wins;
models Python dict indexing / the `in` membership test on dicts. -/
def lookupField : List (String × Json) → String → Option Json
  | [], _ => none
  | (k, v) :: rest, key => if k = key then some v else lookupField rest key

/-- Field access on a JSON value; anything that is not an object has no
fields (models the failing/false dict lookups in `_process_responses`). -/
def jLookup : Json → String → Option Json
  | Json.obj fields, key => lookupField fields key
  | _, _ => none

/-- The character (as an ASCII code) at index `n` of the standard base64
alphabet used by Python's `base64.b64encode`. -/
def b64Char (n : Nat) : Nat :=
  if n < 26 then 65 + n
  else if n < 52 then 97 + (n - 26)
  else if n < 62 then 48 + (n - 52)
  else if n = 62 then 43
  else 47

/-- Inverse of the base64 alphabet: maps an ASCII code back to its 6-bit
value, `none` for codes outside the alphabet. -/
def b64Val (c : Nat) : Option Nat :=
  if 65 ≤ c ∧ c ≤ 90 then some (c - 65)
  else if 97 ≤ c ∧ c ≤ 122 then some (c - 97 + 26)
  else if 48 ≤ c ∧ c ≤ 57 then some (c - 48 + 52)
  else if c = 43 then some 62
  else if c = 47 then some 63
  else none

/-- Standard base64 encoding of a byte list (bytes as `Nat < 256`), with
`=` (ASCII 61) padding, exactly as `base64.b64encode` produces. -/
def b64encode : List Nat → List Nat
  | [] => []
  | [a] => [b64Char (a / 4), b64Char (a % 4 * 16), 61, 61]
  | [a, b] => [b64Char (a / 4), b64Char (a % 4 * 16 + b / 16), b64Char (b % 16 * 4), 61]
  | a :: b :: c :: rest =>
      b64Char (a / 4) :: b64Char (a % 4 * 16 + b / 16) ::
      b64Char (b % 16 * 4 + c / 64) :: b64Char (c % 64) :: b64encode rest

/-- Standard base64 decoding (the behaviour of `base64.b64decode` on
well-formed input); `none` models the raised `binascii.Error`. -/
def b64decode : List Nat → Option (List Nat)
  | [] => some []
  | c1 :: c2 :: c3 :: c4 :: rest =>
      (b64Val c1).bind fun v1 =>
      (b64Val c2).bind fun v2 =>
      if c3 = 61 ∧ c4 = 61 ∧ rest = [] then
        some [v1 * 4 + v2 / 16]
      else if c4 = 61 ∧ rest = [] then
        (b64Val c3).bind fun v3 =>
        some [v1 * 4 + v2 / 16, v2 % 16 * 16 + v3 / 4]
      else
        (b64Val c3).bind fun v3 =>
        (b64Val c4).bind fun v4 =>
        (b64decode rest).bind fun tl =>
        some ((v1 * 4 + v2 / 16) :: (v2 % 16 * 16 + v3 / 4) :: (v3 % 4 * 64 + v4) :: tl)
  | _ => none

theorem b64Val_b64Char : ∀ n, n < 64 → b64Val (b64Char n) = some n := by decide

theorem b64Char_ne_pad (n : Nat) : b64Char n ≠ 61 := by
  unfold b64Char
  repeat' split
  all_goals omega

theorem b64Char_lt (n : Nat) : b64Char n < 128 := by
  unfold b64Char
  repeat' split
  all_goals omega

theorem b64encode_lt : ∀ (bs : List Nat), ∀ x ∈ b64encode bs, x < 128
  | [], x, hx => by simp [b64encode] at hx
  | [a], x, hx => by
      simp only [b64encode, List.mem_cons, List.not_mem_nil, or_false] at hx
      rcases hx with rfl | rfl | rfl | rfl
      · exact b64Char_lt _
      · exact b64Char_lt _
      · omega
      · omega
  | [a, b], x, hx => by
      simp only [b64encode, List.mem_cons, List.not_mem_nil, or_false] at hx
      rcases hx with rfl | rfl | rfl | rfl
      · exact b64Char_lt _
      · exact b64Char_lt _
      · exact b64Char_lt _
      · omega
  | a :: b :: c :: rest, x, hx => by
      simp only [b64encode, List.mem_cons] at hx
      rcases hx with rfl | rfl | rfl | rfl | hx
      · exact b64Char_lt _
      · exact b64Char_lt _
      · exact b64Char_lt _
      · exact b64Char_lt _
      · exact b64encode_lt rest x hx

theorem b64decode_b64encode : ∀ (bs : List Nat), (∀ x ∈ bs, x < 256) →
    b64decode (b64encode bs) = some bs
  | [], _ => rfl
  | [a], h => by
      have ha : a < 256 := h a (by simp)
      have h1 : a / 4 < 64 := by omega
      have h2 : a % 4 * 16 < 64 := by omega
      simp only [b64encode, b64decode]
      rw [b64Val_b64Char _ h1, b64Val_b64Char _ h2]
      simp
      omega
  | [a, b], h => by
      have ha : a < 256 := h a (by simp)
      have hb : b < 256 := h b (by simp)
      have h1 : a / 4 < 64 := by omega
      have h2 : a % 4 * 16 + b / 16 < 64 := by omega
      have h3 : b % 16 * 4 < 64 := by omega
      simp only [b64encode, b64decode]
      rw [b64Val_b64Char _ h1, b64Val_b64Char _ h2, b64Val_b64Char _ h3]
      simp [b64Char_ne_pad]
      omega
  | a :: b :: c :: rest, h => by
      have ha : a < 256 := h a (by simp)
      have hb : b < 256 := h b (by simp)
      have hc : c < 256 := h c (by simp)
      have h1 : a / 4 < 64 := by omega
      have h2 : a % 4 * 16 + b / 16 < 64 := by omega
      have h3 : b % 16 * 4 + c / 64 < 64 := by omega
      have h4 : c % 64 < 64 := by omega
      have ih : b64decode (b64encode rest) = some rest :=
        b64decode_b64encode rest (fun x hx => h x (by simp [hx]))
      simp only [b64encode, b64decode]
      rw [b64Val_b64Char _ h1, b64Val_b64Char _ h2, b64Val_b64Char _ h3,
          b64Val_b64Char _ h4, ih]
      simp [b64Char_ne_pad]
      omega

/-- Pack a list of ASCII codes into a Lean `String` (the `blob.decode` step
that turns the base64 bytes into the JSON string field). -/
def natsToStr (l : List Nat) : String := String.mk (l.map Char.ofNat)

/-- Read a string back as its list of code points (the `encode` step applied
when the JSON document is put on the wire / taken off it). -/
def strToNats (s : String) : List Nat := s.data.map Char.toNat

theorem char_toNat_ofNat (n : Nat) (h : n < 128) : (Char.ofNat n).toNat = n := by
  have hv : n.isValidChar := Or.inl (by omega)
  simp only [Char.ofNat, hv, Char.ofNatAux, Char.toNat, dif_pos]
  rfl

theorem strToNats_natsToStr (l : List Nat) (h : ∀ x ∈ l, x < 128) :
    strToNats (natsToStr l) = l := by
  unfold strToNats natsToStr
  induction l with
  | nil => rfl
  | cons x xs ih =>
      simp only [List.map_cons]
      have hx : (Char.ofNat x).toNat = x := char_toNat_ofNat x (h x (by simp))
      have hxs := ih (fun y hy => h y (by simp [hy]))
      simp only [String.mk] at hxs ⊢
      simp_all

/-- Immutable per-session configuration fixed in `__init__`: the voice id
plus the three uuid identifiers (`prompt_name`, `content_name`,
`audio_content_name`). -/
structure Config where
  voice_id : String
  prompt_name : String
  content_name : String
  audio_content_name : String

/-- Mutable state of a `SimpleNovaSonicStreaming` object, together with the
trace of events actually delivered to the transport (`sent`, oldest first).
`has_stream` is `stream_response is not None`; `stream_closed` records that
`stream_response.input_stream.close()` ran. The pyaudio handles are modelled
by existence/open flags; closing an already-closed device stream is modelled
as a no-op, per the external Transport/Audio interface contracts. -/
structure SessionState where
  cfg : Config
  is_active : Bool
  has_stream : Bool
  stream_closed : Bool
  has_input_stream : Bool
  input_open : Bool
  has_output_stream : Bool
  output_open : Bool
  p_alive : Bool
  sent : List Json

/-- State of a fresh object right after `__init__`. -/
def freshState (cfg : Config) : SessionState :=
  { cfg := cfg, is_active := false, has_stream := false, stream_closed := false,
    has_input_stream := false, input_open := false, has_output_stream := false,
    output_open := false, p_alive := true, sent := [] }

/-- The `sessionStart` handshake event (step 1 of
`_send_initialization_events`). -/
def session_start_event : Json :=
  Json.obj [("event", Json.obj [("sessionStart", Json.obj [
    ("inferenceConfiguration", Json.obj [
      ("maxTokens", Json.num 1024 0),
      ("topP", Json.num 95 2),
      ("temperature", Json.num 7 1)])])])]

/-- The `promptStart` handshake event (step 2). -/
def prompt_start_event (cfg : Config) : Json :=
  Json.obj [("event", Json.obj [("promptStart", Json.obj [
    ("promptName", Json.str cfg.prompt_name),
    ("audioOutputConfiguration", Json.obj [
      ("mediaType", Json.str "audio/lpcm"),
      ("sampleRateHertz", Json.num 24000 0),
      ("sampleSizeBits", Json.num 16 0),
      ("channelCount", Json.num 1 0),
      ("voiceId", Json.str cfg.voice_id),
      ("encoding", Json.str "base64"),
      ("audioType", Json.str "SPEECH")])])])]

/-- The `contentStart(TEXT, SYSTEM)` handshake event (step 3). -/
def content_start_system_event (cfg : Config) : Json :=
  Json.obj [("event", Json.obj [("contentStart", Json.obj [
    ("promptName", Json.str cfg.prompt_name),
    ("contentName", Json.str cfg.content_name),
    ("type", Json.str "TEXT"),
    ("role", Json.str "SYSTEM"),
    ("interactive", Json.bool true),
    ("textInputConfiguration", Json.obj [
      ("mediaType", Json.str "text/plain")])])])]

/-- The `textInput(SYSTEM)` handshake event (step 4), carrying the hardcoded
system prompt. -/
def text_input_system_event (cfg : Config) : Json :=
  Json.obj [("event", Json.obj [("textInput", Json.obj [
    ("promptName", Json.str cfg.prompt_name),
    ("contentName", Json.str cfg.content_name),
    ("content", Json.str
      "You are a helpful voice assistant. Greet the user and wait for their question.")])])]

/-- The `contentEnd(SYSTEM)` handshake event (step 5). -/
def content_end_system_event (cfg : Config) : Json :=
  Json.obj [("event", Json.obj [("contentEnd", Json.obj [
    ("promptName", Json.str cfg.prompt_name),
    ("contentName", Json.str cfg.content_name)])])]

/-- The `contentStart(AUDIO, USER)` event built by
`send_audio_content_start`. -/
def audio_content_start_event (cfg : Config) : Json :=
  Json.obj [("event", Json.obj [("contentStart", Json.obj [
    ("promptName", Json.str cfg.prompt_name),
    ("contentName", Json.str cfg.audio_content_name),
    ("type", Json.str "AUDIO"),
    ("interactive", Json.bool true),
    ("role", Json.str "USER"),
    ("audioInputConfiguration", Json.obj [
      ("mediaType", Json.str "audio/lpcm"),
      ("sampleRateHertz", Json.num 16000 0),
      ("sampleSizeBits", Json.num 16 0),
      ("channelCount", Json.num 1 0),
      ("audioType", Json.str "SPEECH"),
      ("encoding", Json.str "base64")])])])]

/-- The `contentEnd` event built by `send_audio_content_end`. -/
def audio_content_end_event (cfg : Config) : Json :=
  Json.obj [("event", Json.obj [("contentEnd", Json.obj [
    ("promptName", Json.str cfg.prompt_name),
    ("contentName", Json.str cfg.audio_content_name)])])]

/-- The `audioInput` event built in `_process_audio_input` from one dequeued
chunk of raw PCM bytes: the payload is base64 encoded and carried in the
`content` string field. -/
def audio_input_event (cfg : Config) (audio_bytes : List Nat) : Json :=
  Json.obj [("event", Json.obj [("audioInput", Json.obj [
    ("promptName", Json.str cfg.prompt_name),
    ("contentName", Json.str cfg.audio_content_name),
    ("content", Json.str (natsToStr (b64encode audio_bytes)))])])]

/-- `_send_raw_event`: returns silently when the stream is unset or the
session inactive; otherwise attempts the transport send inside
`try/except`, so a raised exception (closed stream, or a transport failure
signalled here by `fail = true`) is caught, logged and swallowed — the
state is returned unchanged and no error ever propagates to the caller. -/
def send_raw_event (fail : Bool) (s : SessionState) (e : Json) : SessionState :=
  if !s.has_stream || !s.is_active then s
  else if s.stream_closed || fail then s
  else { s with sent := s.sent ++ [e] }

/-- The five handshake events of `_send_initialization_events`, in source
order. -/
def initializationEvents (cfg : Config) : List Json :=
  [session_start_event, prompt_start_event cfg, content_start_system_event cfg,
   text_input_system_event cfg, content_end_system_event cfg]

/-- Sequentially send a list of events via `_send_raw_event`; `failAt i`
says whether the transport raises on the i-th send (counting from `i0`). -/
def sendEventsFrom (failAt : Nat → Bool) : Nat → List Json → SessionState → SessionState
  | _, [], s => s
  | i, e :: rest, s => sendEventsFrom failAt (i + 1) rest (send_raw_event (failAt i) s e)

/-- `_send_initialization_events`: sends the five handshake events in order
(the `asyncio.sleep(0.1)` pauses between them have no state effect). -/
def send_initialization_events (failAt : Nat → Bool) (s : SessionState) : SessionState :=
  sendEventsFrom failAt 0 (initializationEvents s.cfg) s

/-- `initialize_stream`: opens the bidirectional stream (`connectOk` says
whether `invoke_model_with_bidirectional_stream` succeeds), sets
`is_active`, sends the handshake events, and starts the two background
tasks. Only a connect failure raises (first component `some msg`); send
failures inside the handshake are swallowed by `_send_raw_event`. -/
def initialize_stream (connectOk : Bool) (failAt : Nat → Bool)
    (s : SessionState) : Option String × SessionState :=
  if connectOk then
    let s1 := { s with has_stream := true, stream_closed := false, is_active := true }
    (none, send_initialization_events failAt s1)
  else
    (some "Failed to initialize stream", { s with is_active := false })

/-- `send_audio_content_start`: unconditionally builds and sends the
`contentStart(AUDIO, USER)` event — no turn bookkeeping exists. -/
def send_audio_content_start (fail : Bool) (s : SessionState) : SessionState :=
  send_raw_event fail s (audio_content_start_event s.cfg)

/-- `send_audio_content_end`: unconditionally builds and sends the matching
`contentEnd` event — no turn bookkeeping exists. -/
def send_audio_content_end (fail : Bool) (s : SessionState) : SessionState :=
  send_raw_event fail s (audio_content_end_event s.cfg)

/-- `stop_conversation`: clears `is_active` first, then calls
`send_audio_content_end` (whose inner `_send_raw_event` now sees
`is_active = False`), closes the pyaudio streams, terminates pyaudio and
closes the transport input stream. -/
def stop_conversation (fail : Bool) (s : SessionState) : SessionState :=
  let s1 := { s with is_active := false }
  let s2 := send_audio_content_end fail s1
  let s3 := if s2.has_input_stream then { s2 with input_open := false } else s2
  let s4 := if s3.has_output_stream then { s3 with output_open := false } else s3
  let s5 := { s4 with p_alive := false }
  if s5.has_stream then { s5 with stream_closed := true } else s5

/-- True when the wire document is an `audioInput` event. -/
def is_audio_input_event (j : Json) : Bool :=
  match jLookup j "event" with
  | some ev => (jLookup ev "audioInput").isSome
  | none => false

/-- Extract and base64-decode the audio payload of the given event variant,
following the access path used on inbound events in `_process_responses`
(`json_data['event'][variant]['content']`, then `base64.b64decode`). -/
def decode_audio_event_content (variant : String) (j : Json) : Option (List Nat) :=
  match jLookup j "event" with
  | some ev =>
    match jLookup ev variant with
    | some body =>
      match jLookup body "content" with
      | some (Json.str s) => b64decode (strToNats s)
      | _ => none
    | none => none
  | none => none

/-- Control point of the `_process_audio_input` loop: at the `while` head
(`running`), suspended inside `await self.audio_input_queue.get()`
(`blocked`, an unbounded wait — the call has no timeout), or returned
(`terminated`). -/
inductive PumpStatus where
  | running
  | blocked
  | terminated
deriving DecidableEq

/-- State of the `_process_audio_input` activity: the session object, the
pending capture-queue entries (each entry's `audio_bytes`), and the control
point. -/
structure PumpState where
  sess : SessionState
  queue : List (List Nat)
  status : PumpStatus

/-- Body of one `_process_audio_input` iteration after a chunk was dequeued:
skip falsy (empty) chunks, otherwise wrap as an `audioInput` event and send
it via `_send_raw_event` (which swallows any transport failure). -/
def processChunk (fail : Bool) (s : SessionState) (c : List Nat) : SessionState :=
  if c = [] then s
  else send_raw_event fail s (audio_input_event s.cfg c)

/-- One small step of `_process_audio_input`. At the loop head the active
flag is tested; with an empty queue the coroutine suspends in `get()`, and
while suspended it can only be woken by a new chunk — the stop flag is not
observed there, because the `get()` has no timeout and the task is never
cancelled by `stop_conversation`. -/
def process_audio_input_step (fail : Bool) (ps : PumpState) : PumpState :=
  match ps.status with
  | .terminated => ps
  | .blocked =>
      match ps.queue with
      | [] => ps
      | c :: rest =>
          { sess := processChunk fail ps.sess c, queue := rest, status := .running }
  | .running =>
      if ps.sess.is_active = false then { ps with status := .terminated }
      else
        match ps.queue with
        | [] => { ps with status := .blocked }
        | c :: rest =>
            { sess := processChunk fail ps.sess c, queue := rest, status := .running }

/-- Iterate the pump for `n` small steps. -/
def process_audio_input_iter (fail : Bool) : Nat → PumpState → PumpState
  | 0, ps => ps
  | n + 1, ps => process_audio_input_iter fail n (process_audio_input_step fail ps)

/-- One message taken off the inbound stream by `_process_responses`:
`empty` is a result with falsy `value`/`bytes_`, `malformed` is a payload
that makes `json.loads` raise `JSONDecodeError`, `parsed fields` is a
decoded JSON object document, `eos` is `StopAsyncIteration`, and
`recvError` is any other exception out of `receive()`. -/
inductive InMsg where
  | empty
  | malformed
  | parsed (fields : List (String × Json))
  | eos
  | recvError

/-- Control point of the `_process_responses` loop: at the `while` head,
suspended in the unbounded `receive()` await, or returned. -/
inductive DispStatus where
  | running
  | blocked
  | terminated
deriving DecidableEq

/-- State of the `_process_responses` activity: session object, playback
queue contents, the not-yet-received inbound messages and the control
point. -/
structure DispState where
  sess : SessionState
  playback : List (List Nat)
  inbound : List InMsg
  status : DispStatus

/-- Loop break plus the `finally: self.is_active = False` that every exit
path of `_process_responses` runs. -/
def haltLoop (ds : DispState) : DispState :=
  { ds with status := .terminated, sess := { ds.sess with is_active := false } }

/-- Outcome of the body applied to a decoded JSON object: ignore it, enqueue
decoded audio, or raise out of the inner conditional (a missing/non-string
`content` key or an invalid base64 payload is not caught by the
`json.JSONDecodeError` handler, so it breaks the loop). -/
inductive ParsedOutcome where
  | skip
  | enqueue (bytes : List Nat)
  | halt

/-- Classify a decoded inbound JSON object the way the body of
`_process_responses` does: only a present `event.audioOutput` is acted on;
its `content` is base64-decoded into playback bytes. -/
def classifyParsed (fields : List (String × Json)) : ParsedOutcome :=
  match lookupField fields "event" with
  | none => .skip
  | some ev =>
    match jLookup ev "audioOutput" with
    | none => .skip
    | some ao =>
      match jLookup ao "content" with
      | some (Json.str s) =>
        match b64decode (strToNats s) with
        | some bytes => .enqueue bytes
        | none => .halt
      | _ => .halt

/-- Handle one received message inside the `_process_responses` loop body.
A `JSONDecodeError` is passed over silently — there is no failure counter —
while `StopAsyncIteration` and receive errors break the loop (running its
`finally`). -/
def handleMsg (ds : DispState) (m : InMsg) : DispState :=
  match m with
  | .empty => { ds with status := .running }
  | .malformed => { ds with status := .running }
  | .parsed fields =>
      match classifyParsed fields with
      | .skip => { ds with status := .running }
      | .enqueue bytes => { ds with status := .running, playback := ds.playback ++ [bytes] }
      | .halt => haltLoop ds
  | .eos => haltLoop ds
  | .recvError => haltLoop ds

/-- One small step of `_process_responses`. -/
def process_responses_step (ds : DispState) : DispState :=
  match ds.status with
  | .terminated => ds
  | .blocked =>
      match ds.inbound with
      | [] => ds
      | m :: rest => handleMsg { ds with inbound := rest } m
  | .running =>
      if ds.sess.is_active = false then haltLoop ds
      else
        match ds.inbound with
        | [] => { ds with status := .blocked }
        | m :: rest => handleMsg { ds with inbound := rest } m

/-- Iterate the dispatcher for `n` small steps. -/
def process_responses_iter : Nat → DispState → DispState
  | 0, ds => ds
  | n + 1, ds => process_responses_iter n (process_responses_step ds)

/-- Control point of the `play_output_audio` loop: at the `while` head,
inside the `asyncio.wait_for(..., timeout=0.1)` dequeue (a bounded wait),
or returned. -/
inductive PlayStatus where
  | running
  | waiting
  | terminated
deriving DecidableEq

/-- State of the `play_output_audio` activity: session object, playback
queue contents, the frames already written to the output device, and the
control point. -/
structure PlayState where
  sess : SessionState
  queue : List (List Nat)
  played : List (List Nat)
  status : PlayStatus

/-- Loop body of `play_output_audio` once a frame was dequeued: write it to
the device only if it is truthy, the session is still active and the output
stream exists; then return to the loop head. -/
def playConsume (ps : PlayState) (d : List Nat) : PlayState :=
  if d ≠ [] ∧ ps.sess.is_active = true ∧ ps.sess.has_output_stream = true then
    { ps with played := ps.played ++ [d], status := .running }
  else { ps with status := .running }

/-- One small step of `play_output_audio`. Unlike the capture-queue dequeue,
this dequeue is wrapped in `asyncio.wait_for` with a 0.1 s timeout, so a
suspended wait on an empty queue returns to the loop head after one bounded
interval and re-tests the active flag. -/
def play_output_audio_step (ps : PlayState) : PlayState :=
  match ps.status with
  | .terminated => ps
  | .waiting =>
      match ps.queue with
      | [] => { ps with status := .running }
      | d :: rest => playConsume { ps with queue := rest } d
  | .running =>
      if ps.sess.is_active = false then { ps with status := .terminated }
      else
        match ps.queue with
        | [] => { ps with status := .waiting }
        | d :: rest => playConsume { ps with queue := rest } d

theorem send_raw_event_is_active (f : Bool) (s : SessionState) (e : Json) :
    (send_raw_event f s e).is_active = s.is_active := by
  unfold send_raw_event
  split
  · rfl
  split
  · rfl
  · rfl

theorem send_raw_event_fail_id (s : SessionState) (e : Json) :
    send_raw_event true s e = s := by
  unfold send_raw_event
  split
  · rfl
  split
  · rfl
  · rename_i h
    simp at h

theorem processChunk_fail_id (s : SessionState) (c : List Nat) :
    processChunk true s c = s := by
  unfold processChunk
  split
  · rfl
  · exact send_raw_event_fail_id s _

/-- A sample configuration used for the concrete evaluations below. -/
def democfg : Config :=
  { voice_id := "matthew", prompt_name := "p-1", content_name := "c-1",
    audio_content_name := "a-1" }

/-- A session as it stands right after a successful `initialize_stream`:
stream open, active flag set, audio device streams opened by
`setup_audio_streams`, nothing beyond the handshake in the trace (the trace
is truncated to start empty for readability of the statements below). -/
def activeSess : SessionState :=
  { cfg := democfg, is_active := true, has_stream := true, stream_closed := false,
    has_input_stream := true, input_open := true, has_output_stream := true,
    output_open := true, p_alive := true, sent := [] }

/-- The same session after the active flag was cleared. -/
def stoppedSess : SessionState := { activeSess with is_active := false }

/-- An active session with an open audio turn: `send_audio_content_start`
has put its `contentStart(AUDIO)` on the wire. -/
def openTurnSess : SessionState :=
  { activeSess with sent := [audio_content_start_event democfg] }

/-- C1: with the stream opened successfully and every transport send
succeeding, `initialize_stream` on a fresh session sends exactly the five
handshake events SessionStart, PromptStart, ContentStart(TEXT, SYSTEM),
TextInput(SYSTEM), ContentEnd(SYSTEM), in that order, raises no error, and
no audio event appears on the wire (the outbound pump only starts
afterwards). -/
theorem initialize_sends_five_events_in_order (cfg : Config) :
    (initialize_stream true (fun _ => false) (freshState cfg)).2.sent
      = [session_start_event, prompt_start_event cfg, content_start_system_event cfg,
         text_input_system_event cfg, content_end_system_event cfg]
    ∧ (initialize_stream true (fun _ => false) (freshState cfg)).1 = none
    ∧ ((initialize_stream true (fun _ => false) (freshState cfg)).2.sent).all
        (fun e => !(is_audio_input_event e)) = true :=
  ⟨rfl, rfl, rfl⟩

/-- C2 counterexample: on a fresh session whose every handshake transport
send fails, `initialize_stream` still returns success (no
InitializationFailed is surfaced), the session ends up active rather than
closed, and the five failed events are simply missing from the wire. -/
theorem handshake_failure_not_surfaced :
    (initialize_stream true (fun _ => true) (freshState democfg)).1 = none
    ∧ (initialize_stream true (fun _ => true) (freshState democfg)).2.is_active = true
    ∧ (initialize_stream true (fun _ => true) (freshState democfg)).2.sent = [] :=
  ⟨rfl, rfl, rfl⟩

/-- C2 amended: a transport send failure during the handshake is caught and
logged inside `_send_raw_event` and never propagated — whatever sends fail,
`initialize_stream` completes without error and leaves the session active;
only a failure to open the stream itself raises, and that path leaves the
session inactive. -/
theorem initialize_swallows_send_failures (cfg : Config) (failAt : Nat → Bool) :
    (initialize_stream true failAt (freshState cfg)).1 = none
    ∧ (initialize_stream true failAt (freshState cfg)).2.is_active = true
    ∧ (initialize_stream false failAt (freshState cfg)).1 = some "Failed to initialize stream"
    ∧ (initialize_stream false failAt (freshState cfg)).2.is_active = false := by
  refine ⟨rfl, ?_, rfl, rfl⟩
  simp only [initialize_stream, send_initialization_events, initializationEvents,
    sendEventsFrom, if_pos]
  simp only [send_raw_event_is_active]

/-- C3 counterexample: an active session with two queued frames; the send of
the first frame fails, yet the pump neither terminates nor deactivates the
session — it dequeues the failed frame, stays running with the trace
unchanged, and on the next step sends the following frame into the same
transport. -/
theorem pump_continues_after_send_failure_cex :
    process_audio_input_step true
        { sess := activeSess, queue := [[1, 2], [3, 4]], status := .running }
      = { sess := activeSess, queue := [[3, 4]], status := .running }
    ∧ process_audio_input_step false
        (process_audio_input_step true
          { sess := activeSess, queue := [[1, 2], [3, 4]], status := .running })
      = { sess := { activeSess with sent := [audio_input_event democfg [3, 4]] },
          queue := [], status := .running } :=
  ⟨rfl, rfl⟩

/-- C3 amended: a transport failure while sending an `AudioFrame` is caught
and only logged inside `_send_raw_event`; the pump loop keeps running with
the session state untouched and sends the next queued frame normally — no
fatal session error is escalated and the session is not terminated. -/
theorem pump_send_failure_logged_and_continues (sess : SessionState)
    (c1 c2 : List Nat) (rest : List (List Nat)) (hA : sess.is_active = true)
    (hS : sess.has_stream = true) (hC : sess.stream_closed = false) (h2 : c2 ≠ []) :
    process_audio_input_step true
        { sess := sess, queue := c1 :: c2 :: rest, status := .running }
      = { sess := sess, queue := c2 :: rest, status := .running }
    ∧ process_audio_input_step false
        (process_audio_input_step true
          { sess := sess, queue := c1 :: c2 :: rest, status := .running })
      = { sess := { sess with sent := sess.sent ++ [audio_input_event sess.cfg c2] },
          queue := rest, status := .running } := by
  have hstep : process_audio_input_step true
      { sess := sess, queue := c1 :: c2 :: rest, status := .running }
    = { sess := sess, queue := c2 :: rest, status := .running } := by
    simp [process_audio_input_step, hA, processChunk_fail_id]
  refine ⟨hstep, ?_⟩
  rw [hstep]
  simp [process_audio_input_step, hA, processChunk, h2, send_raw_event, hS, hC]

/-- C3 witness: the amended theorem applied to the concrete two-frame
scenario. -/
theorem pump_send_failure_witness :
    process_audio_input_step true
        { sess := activeSess, queue := [[9], [7]], status := .running }
      = { sess := activeSess, queue := [[7]], status := .running } :=
  (pump_send_failure_logged_and_continues activeSess [9] [7] [] rfl rfl rfl
    (by simp)).1

/-- C4 counterexample: three consecutive malformed inbound frames are all
passed over silently — after the third the dispatcher is still running, the
session is still active, and no MalformedPayload-derived error exists
anywhere (the code keeps no failure counter at all). -/
theorem three_malformed_frames_not_fatal_cex :
    process_responses_step (process_responses_step (process_responses_step
        { sess := activeSess, playback := [],
          inbound := [.malformed, .malformed, .malformed], status := .running }))
      = { sess := activeSess, playback := [], inbound := [], status := .running }
    ∧ (process_responses_step (process_responses_step (process_responses_step
        { sess := activeSess, playback := [],
          inbound := [.malformed, .malformed, .malformed], status := .running }))).sess.is_active
      = true :=
  ⟨rfl, rfl⟩

/-- C4 amended: `_process_responses` keeps no failure counter: a
`json.JSONDecodeError` is swallowed by `pass`, so any number of consecutive
malformed frames is tolerated — the dispatcher consumes them all and keeps
running with the session state untouched; it terminates only on
end-of-stream or a receive error, never with a MalformedPayload error. -/
theorem dispatcher_ignores_malformed_indefinitely (sess : SessionState)
    (pb : List (List Nat)) (n : Nat) (hA : sess.is_active = true) :
    process_responses_iter n
        { sess := sess, playback := pb,
          inbound := List.replicate n InMsg.malformed, status := .running }
      = { sess := sess, playback := pb, inbound := [], status := .running } := by
  induction n with
  | zero => rfl
  | succ n ih =>
      have hstep : process_responses_step
          { sess := sess, playback := pb,
            inbound := List.replicate (n + 1) InMsg.malformed, status := .running }
        = { sess := sess, playback := pb,
            inbound := List.replicate n InMsg.malformed, status := .running } := by
        simp [process_responses_step, List.replicate, handleMsg, hA]
      simp only [process_responses_iter]
      rw [hstep]
      exact ih

/-- C4 witness: the amended theorem applied to two consecutive malformed
frames on the concrete active session. -/
theorem dispatcher_ignores_malformed_witness :
    process_responses_iter 2
        { sess := activeSess, playback := [],
          inbound := List.replicate 2 InMsg.malformed, status := .running }
      = { sess := activeSess, playback := [], inbound := [], status := .running } :=
  dispatcher_ignores_malformed_indefinitely activeSess [] 2 rfl

/-- C5 counterexample: on an active session, a second
`send_audio_content_start` without an intervening end does not fail — it
puts a second `contentStart(AUDIO)` on the wire (so an event IS sent for
the call the spec says must be rejected), and `send_audio_content_end`
without any open turn likewise just sends a `contentEnd`; the session stays
active and no error value exists in either signature. -/
theorem begin_turn_twice_sends_twice_cex :
    (send_audio_content_start false (send_audio_content_start false activeSess)).sent
      = [audio_content_start_event democfg, audio_content_start_event democfg]
    ∧ (send_audio_content_start false (send_audio_content_start false activeSess)).is_active
      = true
    ∧ (send_audio_content_end false activeSess).sent = [audio_content_end_event democfg] :=
  ⟨rfl, rfl, rfl⟩

/-- C5 amended: no turn state is tracked and no TurnAlreadyOpen/NoOpenTurn
errors exist: on an active session with an open, unclosed stream every
`send_audio_content_start` / `send_audio_content_end` call simply appends
its `contentStart(AUDIO, USER)` / `contentEnd` event to the wire trace and
changes nothing else, regardless of how many turns are already open. -/
theorem audio_turn_calls_always_send (s : SessionState) (hA : s.is_active = true)
    (hS : s.has_stream = true) (hC : s.stream_closed = false) :
    send_audio_content_start false s
      = { s with sent := s.sent ++ [audio_content_start_event s.cfg] }
    ∧ send_audio_content_end false s
      = { s with sent := s.sent ++ [audio_content_end_event s.cfg] } := by
  constructor <;>
    simp [send_audio_content_start, send_audio_content_end, send_raw_event, hA, hS, hC]

/-- C5 witness: the amended theorem applied to the concrete active
session. -/
theorem audio_turn_calls_always_send_witness :
    send_audio_content_start false activeSess
      = { activeSess with sent := [audio_content_start_event democfg] } :=
  (audio_turn_calls_always_send activeSess rfl rfl rfl).1

/-- C6: evaluating `stop_conversation` on an active session with an open
audio turn shows the closing `contentEnd` never reaches the transport: the
method clears `is_active` before calling `send_audio_content_end`, whose
inner `_send_raw_event` then returns on its `not self.is_active` guard, so
the wire trace is unchanged (the flag itself is cleared as claimed). -/
theorem stop_conversation_omits_contentEnd :
    (stop_conversation false openTurnSess).sent = [audio_content_start_event democfg]
    ∧ (stop_conversation false openTurnSess).is_active = false
    ∧ ∀ f : Bool, (stop_conversation f openTurnSess).sent = openTurnSess.sent :=
  ⟨rfl, rfl, fun _ => rfl⟩

/-- C7: `stop_conversation` is idempotent on the session state — a second
call (with any transport behaviour) reproduces the first call's state
exactly, so there is exactly one transition out of the active state, the
second call performs no sends (the trace is already equal), and no further
state change happens. -/
theorem stop_conversation_idempotent (f g : Bool) (s : SessionState) :
    stop_conversation g (stop_conversation f s) = stop_conversation f s
    ∧ (stop_conversation f s).is_active = false := by
  obtain ⟨cfg, a, hs, sc, hi, io, ho, oo, pa, sent⟩ := s
  cases hs <;> cases hi <;> cases ho <;> exact ⟨rfl, rfl⟩

/-- C8 counterexample: the pump suspended in `audio_input_queue.get()` on an
empty queue after the session has been stopped is a fixed point of the step
relation — after one bounded-wait interval (one step) it has not terminated,
and it never will, because the `get()` has no timeout through which the stop
flag could be observed. -/
theorem pump_stuck_when_stopped_cex :
    process_audio_input_step false
        { sess := stoppedSess, queue := [], status := .blocked }
      = { sess := stoppedSess, queue := [], status := .blocked }
    ∧ (process_audio_input_step false
        { sess := stoppedSess, queue := [], status := .blocked }).status
      ≠ PumpStatus.terminated :=
  ⟨rfl, by decide⟩

/-- C8 amended: the capture-queue dequeue of `_process_audio_input` is an
unbounded `asyncio.Queue.get()` with no timeout, and `stop_conversation`
never cancels the task: a pump blocked on an empty capture queue stays
blocked for any number of steps, whatever the session state (in particular
after a stop), and only observes the stop flag at the loop head after a
frame arrives. -/
theorem pump_blocked_forever_on_empty_queue (f : Bool) (sess : SessionState) (n : Nat) :
    process_audio_input_iter f n { sess := sess, queue := [], status := .blocked }
      = { sess := sess, queue := [], status := .blocked }
    ∧ (process_audio_input_iter f n
        { sess := sess, queue := [], status := .blocked }).status
      ≠ PumpStatus.terminated := by
  have hfix : ∀ m, process_audio_input_iter f m
      { sess := sess, queue := [], status := .blocked }
    = { sess := sess, queue := [], status := .blocked } := by
    intro m
    induction m with
    | zero => rfl
    | succ m ih => exact ih
  exact ⟨hfix n, by rw [hfix n]; simp⟩

/-- C9: encoding any byte string of PCM samples as an `audioInput` wire
event (base64 payload in the JSON envelope, as `_process_audio_input`
builds it) and then extracting and base64-decoding that payload (the access
path `_process_responses` uses on inbound audio events) reproduces the
original bytes exactly — same length, same order, same values. -/
theorem audio_input_event_roundtrip (cfg : Config) (pcm : List Nat)
    (h : ∀ x ∈ pcm, x < 256) :
    decode_audio_event_content "audioInput" (audio_input_event cfg pcm) = some pcm := by
  show b64decode (strToNats (natsToStr (b64encode pcm))) = some pcm
  rw [strToNats_natsToStr _ (b64encode_lt pcm)]
  exact b64decode_b64encode pcm h

/-- C9 witness: the round trip evaluated on a concrete five-byte PCM
payload exercising low, high and middle byte values. -/
theorem audio_input_event_roundtrip_witness :
    (∀ x ∈ [0, 255, 16, 1, 128], x < 256)
    ∧ decode_audio_event_content "audioInput"
        (audio_input_event democfg [0, 255, 16, 1, 128]) = some [0, 255, 16, 1, 128] :=
  ⟨by decide, audio_input_event_roundtrip democfg [0, 255, 16, 1, 128] (by decide)⟩

theorem handleMsg_terminated (ds : DispState) (m : InMsg)
    (h : (handleMsg ds m).status = DispStatus.terminated) :
    (handleMsg ds m).sess.is_active = false := by
  cases m with
  | empty => simp [handleMsg] at h
  | malformed => simp [handleMsg] at h
  | parsed fields => cases hc : classifyParsed fields <;> simp_all [handleMsg, haltLoop]
  | eos => simp [handleMsg, haltLoop]
  | recvError => simp [handleMsg, haltLoop]

/-- C10: whichever way an iteration of `_process_responses` terminates the
loop — end-of-stream, a receive error, or an exception escaping the inner
handler — its `finally` clears `is_active` first; once the flag is false
every subsequent `_send_raw_event` (through which all lifecycle and audio
calls send) returns without sending, and the `play_output_audio` loop,
whose dequeue is bounded by a 0.1 s timeout, terminates within two steps
from any control point. -/
theorem dispatcher_exit_quiesces :
    (∀ ds : DispState, ds.status ≠ DispStatus.terminated →
        (process_responses_step ds).status = DispStatus.terminated →
        (process_responses_step ds).sess.is_active = false)
    ∧ (∀ (f : Bool) (s : SessionState) (e : Json),
        s.is_active = false → send_raw_event f s e = s)
    ∧ (∀ ps : PlayState, ps.sess.is_active = false →
        (play_output_audio_step (play_output_audio_step ps)).status
          = PlayStatus.terminated) := by
  refine ⟨?_, ?_, ?_⟩
  · intro ds h1 h2
    rcases ds with ⟨sess, pb, inbound, st⟩
    cases st with
    | terminated => exact absurd rfl h1
    | blocked =>
        cases inbound with
        | nil => simp [process_responses_step] at h2
        | cons m rest => exact handleMsg_terminated _ m h2
    | running =>
        rcases hA : sess.is_active with _ | _
        · simp [process_responses_step, hA, haltLoop]
        · cases inbound with
          | nil => simp [process_responses_step, hA] at h2
          | cons m rest =>
              simp only [process_responses_step, hA] at h2 ⊢
              simp only [Bool.true_eq_false, if_false] at h2 ⊢
              exact handleMsg_terminated _ m h2
  · intro f s e h
    simp [send_raw_event, h]
  · intro ps h
    rcases ps with ⟨sess, q, pl, st⟩
    replace h : sess.is_active = false := h
    cases st <;> cases q <;> simp [play_output_audio_step, playConsume, h]

/-- C10 witness: the three components applied to concrete states — an
end-of-stream exit deactivates the session, a send on the deactivated
session is a no-op, and the playback loop suspended on an empty queue
terminates in two steps. -/
theorem dispatcher_exit_quiesces_witness :
    (process_responses_step
        { sess := activeSess, playback := [], inbound := [InMsg.eos],
          status := .running }).sess.is_active = false
    ∧ send_raw_event false stoppedSess session_start_event = stoppedSess
    ∧ (play_output_audio_step (play_output_audio_step
        { sess := stoppedSess, queue := [], played := [],
          status := PlayStatus.waiting })).status = PlayStatus.terminated :=
  ⟨dispatcher_exit_quiesces.1 _ (by decide) rfl,
   dispatcher_exit_quiesces.2.1 false stoppedSess session_start_event rfl,
   dispatcher_exit_quiesces.2.2 _ rfl⟩
